import Mathlib

/-!
Verification of the third-eye-mcp screen-capture server core.

The data model follows `src/third_eye_mcp/types.py`; the tool dispatcher
follows `handle_call_tool` in `src/third_eye_mcp/server.py`.  The four tool
bodies (capture, capture_region, latest, list_displays) and the services
(StorageService, AdService, the screenshot backend) are not part of the
provided sources, so they are modelled from the specification; each such
definition carries a doc comment saying so.  Python dynamic values in the
argument bag are modelled by `JVal`, Python exceptions by `Except PyErr`,
the external pixel backend by the `Backend` record, and the process-wide
single capture slot by an explicitly threaded `Option StoredCapture`.
-/

/-- Display descriptor, mirroring `DisplayInfo` in types.py. -/
structure DisplayInfo where
  index : Int
  name : String
  x : Int
  y : Int
  width : Int
  height : Int
  is_primary : Bool
deriving DecidableEq, Repr

/-- Capture metadata, mirroring `CaptureMetadata` in types.py:
`display_index` and `sponsored` are optional. -/
structure CaptureMetadata where
  width : Nat
  height : Nat
  display_index : Option Int
  timestamp : String
  sponsored : Option String
deriving DecidableEq, Repr

/-- Result of a capture, mirroring `CaptureResult` in types.py. -/
structure CaptureResult where
  image_base64 : String
  metadata : CaptureMetadata
deriving DecidableEq, Repr

/-- Validated capture arguments, mirroring `CaptureInput` in types.py
(display_index >= 0, 100 <= max_width <= 4096, 0 <= delay <= 10). -/
structure CaptureInput where
  display_index : Int
  max_width : Int
  delay : Rat
  instant : Bool
deriving DecidableEq, Repr

/-- Validated region arguments, mirroring `CaptureRegionInput` in types.py
(x, y >= 0, width, height > 0, same max_width and delay bounds). -/
structure CaptureRegionInput where
  x : Int
  y : Int
  width : Int
  height : Int
  max_width : Int
  delay : Rat
  instant : Bool
deriving DecidableEq, Repr

/-- Stored capture slot entry, mirroring `StoredCapture` in types.py. -/
structure StoredCapture where
  image_base64 : String
  metadata : CaptureMetadata
  captured_at : String
deriving DecidableEq, Repr

/-- A dynamic JSON-ish value in the tool-call argument bag. -/
inductive JVal where
  | jint (i : Int)
  | jnum (q : Rat)
  | jbool (b : Bool)
  | jstr (s : String)
deriving DecidableEq, Repr

/-- The argument bag of a tool call: an association list of names to values. -/
abbrev Args := List (String × JVal)

/-- The Python exceptions that can arise inside the dispatcher body. -/
inductive PyErr where
  | keyError (key : String)
  | validationError (msg : String)
  | invalidDisplay (msg : String)
  | invalidRegion (msg : String)
  | backendError (msg : String)
deriving DecidableEq, Repr

/-- An apostrophe character as a string (used by Python `str(KeyError(k))`). -/
def apos : String := String.singleton (Char.ofNat 39)

/-- `str(e)` for each modelled exception; `str(KeyError(k))` is the repr of
the key, i.e. the key wrapped in apostrophes. -/
def PyErr.message : PyErr → String
  | .keyError k => apos ++ k ++ apos
  | .validationError m => m
  | .invalidDisplay m => m
  | .invalidRegion m => m
  | .backendError m => m

/-- A raw (pre-resize) image produced by the pixel backend. -/
structure RawImage where
  width : Nat
  height : Nat
  data : String
deriving DecidableEq, Repr

/-- Modelled from the spec: the external collaborators of the core — the OS
display enumeration and pixel-capture primitives, the resize/PNG/base64
encoder, the clock, and AdService (`get_ad`, a stateless sponsor string). -/
structure Backend where
  displays : List DisplayInfo
  grab : Nat → RawImage
  grabRegion : Int → Int → Int → Int → RawImage
  regionOk : Int → Int → Int → Int → Bool
  encodeResized : RawImage → Nat → Nat → String
  now : String
  ad : String

/-- One response content block: text, or a base64 image with a mime type. -/
inductive Content where
  | text (s : String)
  | image (data : String) (mimeType : String)
deriving DecidableEq, Repr

/-- Hex digit character for JSON escapes. -/
def hexDigit (n : Nat) : Char :=
  if n < 10 then Char.ofNat (48 + n) else Char.ofNat (87 + n)

/-- Four-digit hex rendering for JSON unicode escapes. -/
def hex4 (n : Nat) : String :=
  String.mk [hexDigit (n / 4096 % 16), hexDigit (n / 256 % 16),
    hexDigit (n / 16 % 16), hexDigit (n % 16)]

/-- JSON escaping of one character, following `json.dumps` defaults
(escape quote, backslash, control characters, non-ASCII). -/
def jsonEscapeChar (c : Char) : String :=
  if c = '"' then "\\\""
  else if c = '\\' then "\\\\"
  else if c = '\n' then "\\n"
  else if c = '\r' then "\\r"
  else if c = '\t' then "\\t"
  else if c.toNat < 32 then "\\u" ++ hex4 c.toNat
  else if 127 ≤ c.toNat then "\\u" ++ hex4 c.toNat
  else String.singleton c

/-- JSON escaping of a string body. -/
def jsonEscape (s : String) : String :=
  String.join (s.data.map jsonEscapeChar)

/-- A JSON string literal. -/
def jsonStrLit (s : String) : String := "\"" ++ jsonEscape s ++ "\""

/-- `json.dumps(\x7b"error": msg\x7d, indent=2)`: the structured error payload
text produced by the dispatcher for every converted failure. -/
def errorJson (msg : String) : String :=
  "\x7b\n  \"error\": " ++ jsonStrLit msg ++ "\n\x7d"

/-- Modelled from the spec: JSON rendering of the metadata dict produced by
the missing tool bodies — keys in insertion order, `displayIndex` present
only for full-display captures, rendered with `json.dumps(..., indent=2)`. -/
def metadataJson (m : CaptureMetadata) : String :=
  "\x7b\n  \"width\": " ++ toString m.width ++
  ",\n  \"height\": " ++ toString m.height ++
  (match m.display_index with
   | some i => ",\n  \"displayIndex\": " ++ toString i
   | none => "") ++
  ",\n  \"timestamp\": " ++ jsonStrLit m.timestamp ++
  (match m.sponsored with
   | some s => ",\n  \"sponsored\": " ++ jsonStrLit s
   | none => "") ++ "\n\x7d"

/-- Modelled from the spec: JSON rendering of one display descriptor from the
missing list_displays tool. -/
def displayJson (d : DisplayInfo) : String :=
  "\x7b\"index\": " ++ toString d.index ++
  ", \"name\": " ++ jsonStrLit d.name ++
  ", \"x\": " ++ toString d.x ++
  ", \"y\": " ++ toString d.y ++
  ", \"width\": " ++ toString d.width ++
  ", \"height\": " ++ toString d.height ++
  ", \"is_primary\": " ++ (if d.is_primary then "true" else "false") ++ "\x7d"

/-- Modelled from the spec: JSON rendering of the display list. -/
def displaysJson (ds : List DisplayInfo) : String :=
  "[" ++ String.intercalate ", " (ds.map displayJson) ++ "]"

/-- Python `arguments[key]`: raises `KeyError(key)` when the key is absent. -/
def dictGet (args : Args) (k : String) : Except PyErr JVal :=
  match args.lookup k with
  | some v => .ok v
  | none => .error (.keyError k)

/-- Python `arguments.get(key, default)`. -/
def dictGetD (args : Args) (k : String) (d : JVal) : JVal :=
  (args.lookup k).getD d

/-- Pydantic integer coercion: only an int value is accepted. -/
def asInt : JVal → Except PyErr Int
  | .jint i => .ok i
  | _ => .error (.validationError "value is not a valid integer")

/-- Pydantic float coercion: an int or a number is accepted. -/
def asRat : JVal → Except PyErr Rat
  | .jint i => .ok (i : Rat)
  | .jnum q => .ok q
  | _ => .error (.validationError "value is not a valid number")

/-- Pydantic boolean coercion: only a bool value is accepted. -/
def asBool : JVal → Except PyErr Bool
  | .jbool b => .ok b
  | _ => .error (.validationError "value is not a valid boolean")

/-- Modelled from the spec: pydantic validation of `CaptureInput`
(types.py field constraints: display_index >= 0, 100 <= max_width <= 4096,
0 <= delay <= 10), performed by the missing capture tool before any backend
call; the first violated constraint raises a ValidationError. -/
def validateCaptureInput (displayIndex maxWidth delay instant : JVal) :
    Except PyErr CaptureInput :=
  match asInt displayIndex with
  | .error e => .error e
  | .ok di =>
    if di < 0 then .error (.validationError "displayIndex out of range") else
    match asInt maxWidth with
    | .error e => .error e
    | .ok mw =>
      if mw < 100 ∨ 4096 < mw then
        .error (.validationError "maxWidth out of range") else
      match asRat delay with
      | .error e => .error e
      | .ok d =>
        if d < 0 ∨ 10 < d then
          .error (.validationError "delay out of range") else
        match asBool instant with
        | .error e => .error e
        | .ok b => .ok ⟨di, mw, d, b⟩

/-- Modelled from the spec: pydantic validation of `CaptureRegionInput`
(types.py field constraints: x, y >= 0, width, height > 0, same max_width
and delay bounds), performed by the missing capture_region tool before any
backend call. -/
def validateRegionInput (x y width height maxWidth delay instant : JVal) :
    Except PyErr CaptureRegionInput :=
  match asInt x with
  | .error e => .error e
  | .ok vx =>
    if vx < 0 then .error (.validationError "x out of range") else
    match asInt y with
    | .error e => .error e
    | .ok vy =>
      if vy < 0 then .error (.validationError "y out of range") else
      match asInt width with
      | .error e => .error e
      | .ok vw =>
        if vw ≤ 0 then .error (.validationError "width out of range") else
        match asInt height with
        | .error e => .error e
        | .ok vh =>
          if vh ≤ 0 then .error (.validationError "height out of range") else
          match asInt maxWidth with
          | .error e => .error e
          | .ok mw =>
            if mw < 100 ∨ 4096 < mw then
              .error (.validationError "maxWidth out of range") else
            match asRat delay with
            | .error e => .error e
            | .ok d =>
              if d < 0 ∨ 10 < d then
                .error (.validationError "delay out of range") else
              match asBool instant with
              | .error e => .error e
              | .ok b => .ok ⟨vx, vy, vw, vh, mw, d, b⟩

/-- Modelled from the spec: aspect-preserving downsize — a no-op when the raw
width is already at most `maxW`, otherwise width becomes `maxW` and height is
scaled by the same factor (integer rounding). -/
def resizeDims (w h maxW : Nat) : Nat × Nat :=
  if w ≤ maxW then (w, h) else (maxW, h * maxW / w)

/-- Modelled from the spec: `StorageService.put` — always succeeds and
replaces the single slot with the new capture. -/
def storagePut (c : CaptureResult) (now : String) : Option StoredCapture :=
  some ⟨c.image_base64, c.metadata, now⟩

/-- Modelled from the spec: `StorageService.get` — never fails, returns the
slot content or the empty sentinel. -/
def storageGet (slot : Option StoredCapture) : Option StoredCapture := slot

/-- Outcome of one capture tool body: the Python return-or-raise, the slot
after the call, the seconds actually waited, and whether the pixel-capture
primitive was invoked. -/
structure CaptureStep where
  result : Except PyErr CaptureResult
  slot : Option StoredCapture
  waited : Rat
  touched : Bool
deriving Repr

/-- Modelled from the spec: the capture result built for a validated
full-display capture — grab the display, downsize to `max_width`
(aspect-preserving), encode to base64 PNG, and attach metadata with the
final dimensions, the captured displayIndex, the capture-completion
timestamp, and the AdService sponsor string. -/
def captureRes (env : Backend) (inp : CaptureInput) : CaptureResult :=
  let raw := env.grab inp.display_index.toNat
  let p := resizeDims raw.width raw.height inp.max_width.toNat
  ⟨env.encodeResized raw p.1 p.2,
    ⟨p.1, p.2, some inp.display_index, env.now, some env.ad⟩⟩

/-- Modelled from the spec: the post-validation part of the missing capture
tool — wait `delay` seconds unless `instant`, then ask the capture primitive
for the display; an index beyond the enumerated displays is rejected by the
primitive with InvalidDisplayError; a successful result is stored via
StorageService before being returned. -/
def captureRun (env : Backend) (slot : Option StoredCapture) (inp : CaptureInput) : CaptureStep :=
  if inp.display_index < (env.displays.length : Int) then
    ⟨.ok (captureRes env inp), storagePut (captureRes env inp) env.now,
      if inp.instant then 0 else inp.delay, true⟩
  else
    ⟨.error (.invalidDisplay ("Display " ++ toString inp.display_index ++ " not found")),
      slot, if inp.instant then 0 else inp.delay, true⟩

/-- Modelled from the spec: the missing capture tool body — validate the
arguments first (a validation failure never reaches the capture primitive),
then run the capture. -/
def captureTool (env : Backend) (slot : Option StoredCapture)
    (displayIndex maxWidth delay instant : JVal) : CaptureStep :=
  match validateCaptureInput displayIndex maxWidth delay instant with
  | .error e => ⟨.error e, slot, 0, false⟩
  | .ok inp => captureRun env slot inp

/-- Modelled from the spec: the capture result built for a validated region
capture — grab the rectangle, downsize, encode, and attach metadata without
a displayIndex (region captures are display-agnostic). -/
def regionRes (env : Backend) (inp : CaptureRegionInput) : CaptureResult :=
  let raw := env.grabRegion inp.x inp.y inp.width inp.height
  let p := resizeDims raw.width raw.height inp.max_width.toNat
  ⟨env.encodeResized raw p.1 p.2, ⟨p.1, p.2, none, env.now, some env.ad⟩⟩

/-- Modelled from the spec: the post-validation part of the missing
capture_region tool — wait unless `instant`, then ask the capture primitive
for the rectangle; a region outside all display bounds is rejected by the
primitive with InvalidRegionError; a successful result is stored via
StorageService before being returned. -/
def regionRun (env : Backend) (slot : Option StoredCapture) (inp : CaptureRegionInput) : CaptureStep :=
  if env.regionOk inp.x inp.y inp.width inp.height then
    ⟨.ok (regionRes env inp), storagePut (regionRes env inp) env.now,
      if inp.instant then 0 else inp.delay, true⟩
  else
    ⟨.error (.invalidRegion "Region is outside display bounds"), slot,
      if inp.instant then 0 else inp.delay, true⟩

/-- Modelled from the spec: the missing capture_region tool body — validate
the arguments first (a validation failure never reaches the capture
primitive), then run the region capture. -/
def captureRegionTool (env : Backend) (slot : Option StoredCapture)
    (x y width height maxWidth delay instant : JVal) : CaptureStep :=
  match validateRegionInput x y width height maxWidth delay instant with
  | .error e => ⟨.error e, slot, 0, false⟩
  | .ok inp => regionRun env slot inp

/-- Return value of the missing latest tool: the empty-state error dict or
the stored image plus metadata. -/
inductive LatestOut where
  | err (msg : String)
  | found (image : String) (metadata : CaptureMetadata)
deriving DecidableEq, Repr

/-- The empty-state message of the latest tool. -/
def noCaptureMsg : String := "No capture available. Use screen.capture first."

/-- Modelled from the spec: the missing latest tool body — reads the slot via
StorageService.get; an empty slot yields the structured no-capture error
dict, never an exception. -/
def latestTool (slot : Option StoredCapture) : LatestOut :=
  match storageGet slot with
  | none => .err noCaptureMsg
  | some s => .found s.image_base64 s.metadata

/-- Outcome of the dispatcher body inside the `try:` block of
`handle_call_tool` (server.py lines 133-199): the Python return-or-raise
plus the threaded effects. -/
structure BodyOut where
  result : Except PyErr (List Content)
  slot : Option StoredCapture
  waited : Rat
  touched : Bool
deriving Repr

/-- The `screen.capture` branch of the dispatcher body (server.py lines
138-156): fetch arguments with `.get` defaults, run the capture tool, and
shape the image-plus-metadata response. -/
def captureBranch (env : Backend) (slot : Option StoredCapture) (args : Args) : BodyOut :=
  match captureTool env slot (dictGetD args "displayIndex" (.jint 0))
      (dictGetD args "maxWidth" (.jint 1920)) (dictGetD args "delay" (.jint 0))
      (dictGetD args "instant" (.jbool false)) with
  | ⟨.ok r, slot2, waited2, touched2⟩ =>
    ⟨.ok [.image r.image_base64 "image/png", .text (metadataJson r.metadata)],
      slot2, waited2, touched2⟩
  | ⟨.error e, slot2, waited2, touched2⟩ => ⟨.error e, slot2, waited2, touched2⟩

/-- The `screen.capture_region` branch of the dispatcher body (server.py
lines 158-179): the four required arguments are fetched with raising `[]`
access (a missing key raises KeyError), then the region tool runs and the
response is shaped. -/
def regionBranch (env : Backend) (slot : Option StoredCapture) (args : Args) : BodyOut :=
  match dictGet args "x" with
  | .error e => ⟨.error e, slot, 0, false⟩
  | .ok vx =>
    match dictGet args "y" with
    | .error e => ⟨.error e, slot, 0, false⟩
    | .ok vy =>
      match dictGet args "width" with
      | .error e => ⟨.error e, slot, 0, false⟩
      | .ok vw =>
        match dictGet args "height" with
        | .error e => ⟨.error e, slot, 0, false⟩
        | .ok vh =>
          match captureRegionTool env slot vx vy vw vh
              (dictGetD args "maxWidth" (.jint 1920)) (dictGetD args "delay" (.jint 0))
              (dictGetD args "instant" (.jbool false)) with
          | ⟨.ok r, slot2, waited2, touched2⟩ =>
            ⟨.ok [.image r.image_base64 "image/png", .text (metadataJson r.metadata)],
              slot2, waited2, touched2⟩
          | ⟨.error e, slot2, waited2, touched2⟩ => ⟨.error e, slot2, waited2, touched2⟩

/-- The `screen.latest` branch of the dispatcher body (server.py lines
181-196): an `error` key in the tool result yields a text payload, a found
capture yields image plus metadata. -/
def latestBranch (_env : Backend) (slot : Option StoredCapture) : BodyOut :=
  match latestTool slot with
  | .err msg => ⟨.ok [.text (errorJson msg)], slot, 0, false⟩
  | .found img m =>
    ⟨.ok [.image img "image/png", .text (metadataJson m)], slot, 0, false⟩

/-- The body of `handle_call_tool` inside `try:` (server.py lines 133-199):
route on the tool name; an unrecognized name returns the plain
`Unknown tool:` text. -/
def tryBody (env : Backend) (slot : Option StoredCapture)
    (name : String) (args : Args) : BodyOut :=
  if name = "screen.list_displays" then
    ⟨.ok [.text (displaysJson env.displays)], slot, 0, false⟩
  else if name = "screen.capture" then captureBranch env slot args
  else if name = "screen.capture_region" then regionBranch env slot args
  else if name = "screen.latest" then latestBranch env slot
  else ⟨.ok [.text ("Unknown tool: " ++ name)], slot, 0, false⟩

/-- Outcome of one full dispatch: the response content blocks and the
threaded effects. -/
structure DispatchOut where
  response : List Content
  slot : Option StoredCapture
  waited : Rat
  touched : Bool
deriving Repr

/-- `handle_call_tool` (server.py lines 128-202): normalize a null argument
bag to the empty mapping, run the body, and convert any raised exception at
the `except Exception` boundary into the structured error payload. -/
def handleCallTool (env : Backend) (slot : Option StoredCapture)
    (name : String) (arguments : Option Args) : DispatchOut :=
  let args := arguments.getD []
  let b := tryBody env slot name args
  match b.result with
  | .ok resp => ⟨resp, b.slot, b.waited, b.touched⟩
  | .error e => ⟨[.text (errorJson e.message)], b.slot, b.waited, b.touched⟩

/-- A concrete single-display 1920x1080 environment used by the witnesses. -/
def env1080 : Backend where
  displays := [⟨0, "Primary", 0, 0, 1920, 1080, true⟩]
  grab := fun _ => ⟨1920, 1080, "RAW"⟩
  grabRegion := fun _ _ w h => ⟨w.toNat, h.toNat, "RAWREGION"⟩
  regionOk := fun _ _ _ _ => true
  encodeResized := fun raw nw nh => raw.data ++ ":" ++ toString nw ++ "x" ++ toString nh
  now := "2025-01-01T00:00:00Z"
  ad := "Sponsored by Example"

/-- The concrete capture produced by `env1080` at displayIndex 0, maxWidth 800. -/
def r1080 : CaptureResult :=
  ⟨"RAW:800x450", ⟨800, 450, some 0, "2025-01-01T00:00:00Z", some "Sponsored by Example"⟩⟩

/-- An out-of-range `screen.capture` argument bag in the sense of the spec:
a negative displayIndex, a maxWidth outside [100, 4096], or a delay outside
[0, 10]. -/
def capOOB (args : Args) : Prop :=
  (∃ i : Int, args.lookup "displayIndex" = some (.jint i) ∧ i < 0) ∨
  (∃ w : Int, args.lookup "maxWidth" = some (.jint w) ∧ (w < 100 ∨ 4096 < w)) ∨
  (∃ d : Int, args.lookup "delay" = some (.jint d) ∧ (d < 0 ∨ 10 < d)) ∨
  (∃ q : Rat, args.lookup "delay" = some (.jnum q) ∧ (q < 0 ∨ 10 < q))

/-- An out-of-range `screen.capture_region` argument bag in the sense of the
spec: the four required keys are present, and a coordinate is negative, a
dimension is non-positive, or maxWidth or delay is outside its range. -/
def regOOB (args : Args) : Prop :=
  ∃ vx vy vw vh : Int,
    args.lookup "x" = some (.jint vx) ∧ args.lookup "y" = some (.jint vy) ∧
    args.lookup "width" = some (.jint vw) ∧ args.lookup "height" = some (.jint vh) ∧
    (vx < 0 ∨ vy < 0 ∨ vw ≤ 0 ∨ vh ≤ 0 ∨
      (∃ w : Int, args.lookup "maxWidth" = some (.jint w) ∧ (w < 100 ∨ 4096 < w)) ∨
      (∃ d : Int, args.lookup "delay" = some (.jint d) ∧ (d < 0 ∨ 10 < d)))

lemma asInt_error_shape {v : JVal} {e : PyErr} (h : asInt v = .error e) :
    ∃ m, e = .validationError m := by
  cases v <;> simp [asInt] at h <;> exact ⟨_, h.symm⟩

lemma asRat_error_shape {v : JVal} {e : PyErr} (h : asRat v = .error e) :
    ∃ m, e = .validationError m := by
  cases v <;> simp [asRat] at h <;> exact ⟨_, h.symm⟩

lemma asBool_error_shape {v : JVal} {e : PyErr} (h : asBool v = .error e) :
    ∃ m, e = .validationError m := by
  cases v <;> simp [asBool] at h <;> exact ⟨_, h.symm⟩

lemma validateCaptureInput_ok {di mw dl inst : JVal} {inp : CaptureInput}
    (h : validateCaptureInput di mw dl inst = .ok inp) :
    asInt di = .ok inp.display_index ∧ 0 ≤ inp.display_index ∧
    asInt mw = .ok inp.max_width ∧ 100 ≤ inp.max_width ∧ inp.max_width ≤ 4096 ∧
    asRat dl = .ok inp.delay ∧ 0 ≤ inp.delay ∧ inp.delay ≤ 10 ∧
    asBool inst = .ok inp.instant := by
  unfold validateCaptureInput at h
  split at h
  · exact absurd h (by simp)
  next di' hdi =>
    split at h
    · exact absurd h (by simp)
    next hdin =>
      split at h
      · exact absurd h (by simp)
      next mw' hmw =>
        split at h
        · exact absurd h (by simp)
        next hmwr =>
          split at h
          · exact absurd h (by simp)
          next d' hd =>
            split at h
            · exact absurd h (by simp)
            next hdr =>
              split at h
              · exact absurd h (by simp)
              next b' hb =>
                simp only [Except.ok.injEq] at h
                subst h
                push_neg at hdin hmwr hdr
                exact ⟨hdi, hdin, hmw, hmwr.1, hmwr.2, hd, hdr.1, hdr.2, hb⟩

lemma validateCaptureInput_error_shape {di mw dl inst : JVal} {e : PyErr}
    (h : validateCaptureInput di mw dl inst = .error e) :
    ∃ m, e = .validationError m := by
  unfold validateCaptureInput at h
  split at h
  next e' he =>
    simp only [Except.error.injEq] at h
    exact h ▸ asInt_error_shape he
  next di' hdi =>
    split at h
    · simp only [Except.error.injEq] at h
      exact ⟨_, h.symm⟩
    split at h
    next e' he =>
      simp only [Except.error.injEq] at h
      exact h ▸ asInt_error_shape he
    next mw' hmw =>
      split at h
      · simp only [Except.error.injEq] at h
        exact ⟨_, h.symm⟩
      split at h
      next e' he =>
        simp only [Except.error.injEq] at h
        exact h ▸ asRat_error_shape he
      next d' hd =>
        split at h
        · simp only [Except.error.injEq] at h
          exact ⟨_, h.symm⟩
        split at h
        next e' he =>
          simp only [Except.error.injEq] at h
          exact h ▸ asBool_error_shape he
        next b' hb => exact absurd h (by simp)

lemma validateRegionInput_ok {x y w h mw dl inst : JVal} {inp : CaptureRegionInput}
    (hv : validateRegionInput x y w h mw dl inst = .ok inp) :
    asInt x = .ok inp.x ∧ 0 ≤ inp.x ∧
    asInt y = .ok inp.y ∧ 0 ≤ inp.y ∧
    asInt w = .ok inp.width ∧ 0 < inp.width ∧
    asInt h = .ok inp.height ∧ 0 < inp.height ∧
    asInt mw = .ok inp.max_width ∧ 100 ≤ inp.max_width ∧ inp.max_width ≤ 4096 ∧
    asRat dl = .ok inp.delay ∧ 0 ≤ inp.delay ∧ inp.delay ≤ 10 ∧
    asBool inst = .ok inp.instant := by
  unfold validateRegionInput at hv
  split at hv
  · exact absurd hv (by simp)
  next vx hx =>
    split at hv
    · exact absurd hv (by simp)
    next hxn =>
      split at hv
      · exact absurd hv (by simp)
      next vy hy =>
        split at hv
        · exact absurd hv (by simp)
        next hyn =>
          split at hv
          · exact absurd hv (by simp)
          next vw hw =>
            split at hv
            · exact absurd hv (by simp)
            next hwn =>
              split at hv
              · exact absurd hv (by simp)
              next vh hh =>
                split at hv
                · exact absurd hv (by simp)
                next hhn =>
                  split at hv
                  · exact absurd hv (by simp)
                  next vmw hmw =>
                    split at hv
                    · exact absurd hv (by simp)
                    next hmwr =>
                      split at hv
                      · exact absurd hv (by simp)
                      next vd hd =>
                        split at hv
                        · exact absurd hv (by simp)
                        next hdr =>
                          split at hv
                          · exact absurd hv (by simp)
                          next vb hb =>
                            simp only [Except.ok.injEq] at hv
                            subst hv
                            push_neg at hxn hyn hwn hhn hmwr hdr
                            exact ⟨hx, hxn, hy, hyn, hw, hwn, hh, hhn,
                              hmw, hmwr.1, hmwr.2, hd, hdr.1, hdr.2, hb⟩

lemma validateRegionInput_error_shape {x y w h mw dl inst : JVal} {e : PyErr}
    (hv : validateRegionInput x y w h mw dl inst = .error e) :
    ∃ m, e = .validationError m := by
  unfold validateRegionInput at hv
  split at hv
  next e' he =>
    simp only [Except.error.injEq] at hv
    exact hv ▸ asInt_error_shape he
  next vx hx =>
    split at hv
    · simp only [Except.error.injEq] at hv
      exact ⟨_, hv.symm⟩
    split at hv
    next e' he =>
      simp only [Except.error.injEq] at hv
      exact hv ▸ asInt_error_shape he
    next vy hy =>
      split at hv
      · simp only [Except.error.injEq] at hv
        exact ⟨_, hv.symm⟩
      split at hv
      next e' he =>
        simp only [Except.error.injEq] at hv
        exact hv ▸ asInt_error_shape he
      next vw hw =>
        split at hv
        · simp only [Except.error.injEq] at hv
          exact ⟨_, hv.symm⟩
        split at hv
        next e' he =>
          simp only [Except.error.injEq] at hv
          exact hv ▸ asInt_error_shape he
        next vh hh =>
          split at hv
          · simp only [Except.error.injEq] at hv
            exact ⟨_, hv.symm⟩
          split at hv
          next e' he =>
            simp only [Except.error.injEq] at hv
            exact hv ▸ asInt_error_shape he
          next vmw hmw =>
            split at hv
            · simp only [Except.error.injEq] at hv
              exact ⟨_, hv.symm⟩
            split at hv
            next e' he =>
              simp only [Except.error.injEq] at hv
              exact hv ▸ asRat_error_shape he
            next vd hd =>
              split at hv
              · simp only [Except.error.injEq] at hv
                exact ⟨_, hv.symm⟩
              split at hv
              next e' he =>
                simp only [Except.error.injEq] at hv
                exact hv ▸ asBool_error_shape he
              next vb hb => exact absurd hv (by simp)

lemma latest_some_response (env : Backend) (s : StoredCapture) (arguments : Option Args) :
    (handleCallTool env (some s) "screen.latest" arguments).response =
      [.image s.image_base64 "image/png", .text (metadataJson s.metadata)] := rfl

lemma handle_waited (env : Backend) (slot : Option StoredCapture)
    (name : String) (arguments : Option Args) :
    (handleCallTool env slot name arguments).waited =
      (tryBody env slot name (arguments.getD [])).waited := by
  simp only [handleCallTool]
  split <;> rfl

lemma handle_slot (env : Backend) (slot : Option StoredCapture)
    (name : String) (arguments : Option Args) :
    (handleCallTool env slot name arguments).slot =
      (tryBody env slot name (arguments.getD [])).slot := by
  simp only [handleCallTool]
  split <;> rfl

lemma handle_touched (env : Backend) (slot : Option StoredCapture)
    (name : String) (arguments : Option Args) :
    (handleCallTool env slot name arguments).touched =
      (tryBody env slot name (arguments.getD [])).touched := by
  simp only [handleCallTool]
  split <;> rfl

lemma handle_response_of_error (env : Backend) (slot : Option StoredCapture)
    (name : String) (arguments : Option Args) (e : PyErr)
    (he : (tryBody env slot name (arguments.getD [])).result = .error e) :
    (handleCallTool env slot name arguments).response = [.text (errorJson e.message)] := by
  simp only [handleCallTool]
  split
  next resp hr => rw [he] at hr; exact absurd hr (by simp)
  next e' hr =>
    rw [he] at hr
    simp only [Except.error.injEq] at hr
    subst hr
    rfl

lemma handle_response_of_ok (env : Backend) (slot : Option StoredCapture)
    (name : String) (arguments : Option Args) (resp : List Content)
    (ho : (tryBody env slot name (arguments.getD [])).result = .ok resp) :
    (handleCallTool env slot name arguments).response = resp := by
  simp only [handleCallTool]
  split
  next resp' hr =>
    rw [ho] at hr
    simp only [Except.ok.injEq] at hr
    subst hr
    rfl
  next e' hr => rw [ho] at hr; exact absurd hr (by simp)

lemma tryBody_capture (env : Backend) (slot : Option StoredCapture) (args : Args) :
    tryBody env slot "screen.capture" args = captureBranch env slot args := rfl

lemma tryBody_region (env : Backend) (slot : Option StoredCapture) (args : Args) :
    tryBody env slot "screen.capture_region" args = regionBranch env slot args := rfl

lemma captureBranch_error (env : Backend) (slot : Option StoredCapture) (args : Args)
    (e : PyErr) (s2 : Option StoredCapture) (w2 : Rat) (t2 : Bool)
    (hstep : captureTool env slot (dictGetD args "displayIndex" (.jint 0))
      (dictGetD args "maxWidth" (.jint 1920)) (dictGetD args "delay" (.jint 0))
      (dictGetD args "instant" (.jbool false)) = ⟨.error e, s2, w2, t2⟩) :
    captureBranch env slot args = ⟨.error e, s2, w2, t2⟩ := by
  unfold captureBranch
  rw [hstep]

lemma captureBranch_ok (env : Backend) (slot : Option StoredCapture) (args : Args)
    (r : CaptureResult) (s2 : Option StoredCapture) (w2 : Rat) (t2 : Bool)
    (hstep : captureTool env slot (dictGetD args "displayIndex" (.jint 0))
      (dictGetD args "maxWidth" (.jint 1920)) (dictGetD args "delay" (.jint 0))
      (dictGetD args "instant" (.jbool false)) = ⟨.ok r, s2, w2, t2⟩) :
    captureBranch env slot args =
      ⟨.ok [.image r.image_base64 "image/png", .text (metadataJson r.metadata)],
        s2, w2, t2⟩ := by
  unfold captureBranch
  rw [hstep]

lemma regionBranch_error (env : Backend) (slot : Option StoredCapture) (args : Args)
    (vx vy vw vh : JVal) (e : PyErr) (s2 : Option StoredCapture) (w2 : Rat) (t2 : Bool)
    (hx : args.lookup "x" = some vx) (hy : args.lookup "y" = some vy)
    (hw : args.lookup "width" = some vw) (hh : args.lookup "height" = some vh)
    (hstep : captureRegionTool env slot vx vy vw vh
      (dictGetD args "maxWidth" (.jint 1920)) (dictGetD args "delay" (.jint 0))
      (dictGetD args "instant" (.jbool false)) = ⟨.error e, s2, w2, t2⟩) :
    regionBranch env slot args = ⟨.error e, s2, w2, t2⟩ := by
  unfold regionBranch
  rw [show dictGet args "x" = .ok vx by simp [dictGet, hx]]
  rw [show dictGet args "y" = .ok vy by simp [dictGet, hy]]
  rw [show dictGet args "width" = .ok vw by simp [dictGet, hw]]
  rw [show dictGet args "height" = .ok vh by simp [dictGet, hh]]
  simp only [hstep]

lemma regionBranch_ok (env : Backend) (slot : Option StoredCapture) (args : Args)
    (vx vy vw vh : JVal) (r : CaptureResult) (s2 : Option StoredCapture) (w2 : Rat) (t2 : Bool)
    (hx : args.lookup "x" = some vx) (hy : args.lookup "y" = some vy)
    (hw : args.lookup "width" = some vw) (hh : args.lookup "height" = some vh)
    (hstep : captureRegionTool env slot vx vy vw vh
      (dictGetD args "maxWidth" (.jint 1920)) (dictGetD args "delay" (.jint 0))
      (dictGetD args "instant" (.jbool false)) = ⟨.ok r, s2, w2, t2⟩) :
    regionBranch env slot args =
      ⟨.ok [.image r.image_base64 "image/png", .text (metadataJson r.metadata)],
        s2, w2, t2⟩ := by
  unfold regionBranch
  rw [show dictGet args "x" = .ok vx by simp [dictGet, hx]]
  rw [show dictGet args "y" = .ok vy by simp [dictGet, hy]]
  rw [show dictGet args "width" = .ok vw by simp [dictGet, hw]]
  rw [show dictGet args "height" = .ok vh by simp [dictGet, hh]]
  simp only [hstep]

lemma captureTool_ok_shape {env : Backend} {slot : Option StoredCapture}
    {di mw dl inst : JVal} {r : CaptureResult}
    (hc : (captureTool env slot di mw dl inst).result = .ok r) :
    ∃ inp, validateCaptureInput di mw dl inst = .ok inp ∧
      inp.display_index < (env.displays.length : Int) ∧
      r = captureRes env inp ∧
      (captureTool env slot di mw dl inst).slot = storagePut r env.now := by
  cases hv : validateCaptureInput di mw dl inst with
  | error e =>
    have ht : captureTool env slot di mw dl inst = ⟨.error e, slot, 0, false⟩ := by
      simp [captureTool, hv]
    rw [ht] at hc
    exact absurd hc (by simp)
  | ok inp =>
    have ht : captureTool env slot di mw dl inst = captureRun env slot inp := by
      simp [captureTool, hv]
    rw [ht] at hc ⊢
    by_cases hD : inp.display_index < (env.displays.length : Int)
    · have hr : captureRun env slot inp =
          ⟨.ok (captureRes env inp), storagePut (captureRes env inp) env.now,
            if inp.instant then 0 else inp.delay, true⟩ := by
        unfold captureRun
        rw [if_pos hD]
      rw [hr] at hc ⊢
      simp only [Except.ok.injEq] at hc
      exact ⟨inp, rfl, hD, hc.symm, by rw [hc]⟩
    · have hr : captureRun env slot inp =
          ⟨.error (.invalidDisplay ("Display " ++ toString inp.display_index ++ " not found")),
            slot, if inp.instant then 0 else inp.delay, true⟩ := by
        unfold captureRun
        rw [if_neg hD]
      rw [hr] at hc
      exact absurd hc (by simp)

lemma captureRegionTool_ok_shape {env : Backend} {slot : Option StoredCapture}
    {x y w h mw dl inst : JVal} {r : CaptureResult}
    (hc : (captureRegionTool env slot x y w h mw dl inst).result = .ok r) :
    ∃ inp, validateRegionInput x y w h mw dl inst = .ok inp ∧
      env.regionOk inp.x inp.y inp.width inp.height = true ∧
      r = regionRes env inp ∧
      (captureRegionTool env slot x y w h mw dl inst).slot = storagePut r env.now := by
  cases hv : validateRegionInput x y w h mw dl inst with
  | error e =>
    have ht : captureRegionTool env slot x y w h mw dl inst = ⟨.error e, slot, 0, false⟩ := by
      simp [captureRegionTool, hv]
    rw [ht] at hc
    exact absurd hc (by simp)
  | ok inp =>
    have ht : captureRegionTool env slot x y w h mw dl inst = regionRun env slot inp := by
      simp [captureRegionTool, hv]
    rw [ht] at hc ⊢
    by_cases hR : env.regionOk inp.x inp.y inp.width inp.height = true
    · have hr : regionRun env slot inp =
          ⟨.ok (regionRes env inp), storagePut (regionRes env inp) env.now,
            if inp.instant then 0 else inp.delay, true⟩ := by
        unfold regionRun
        rw [if_pos hR]
      rw [hr] at hc ⊢
      simp only [Except.ok.injEq] at hc
      exact ⟨inp, rfl, hR, hc.symm, by rw [hc]⟩
    · have hR' : env.regionOk inp.x inp.y inp.width inp.height = false := by
        simpa using hR
      have hr : regionRun env slot inp =
          ⟨.error (.invalidRegion "Region is outside display bounds"), slot,
            if inp.instant then 0 else inp.delay, true⟩ := by
        unfold regionRun
        rw [hR']
        simp
      rw [hr] at hc
      exact absurd hc (by simp)

lemma resizeDims_fst_le (w h m : Nat) : (resizeDims w h m).1 ≤ m := by
  unfold resizeDims
  split
  next hle => simpa using hle
  next hgt => simp

lemma resizeDims_noop {w m : Nat} (h : Nat) (hle : w ≤ m) : resizeDims w h m = (w, h) := by
  unfold resizeDims
  simp [hle]

lemma resizeDims_aspect (w h m : Nat) (hw : 0 < w) :
    (resizeDims w h m).2 * w ≤ h * (resizeDims w h m).1 ∧
    h * (resizeDims w h m).1 < ((resizeDims w h m).2 + 1) * w := by
  unfold resizeDims
  split
  next hle =>
    refine ⟨by rw [Nat.mul_comm], ?_⟩
    calc h * w < h * w + w := by omega
    _ = (h + 1) * w := by ring
  next hgt =>
    refine ⟨Nat.div_mul_le_self (h * m) w, ?_⟩
    have hmod := Nat.div_add_mod (h * m) w
    have hlt := Nat.mod_lt (h * m) hw
    calc h * m = w * (h * m / w) + h * m % w := hmod.symm
    _ < w * (h * m / w) + w := by omega
    _ = (h * m / w + 1) * w := by ring

lemma captureRun_waited (env : Backend) (slot : Option StoredCapture) (inp : CaptureInput) :
    (captureRun env slot inp).waited = if inp.instant then 0 else inp.delay := by
  unfold captureRun
  split <;> rfl

lemma regionRun_waited (env : Backend) (slot : Option StoredCapture) (inp : CaptureRegionInput) :
    (regionRun env slot inp).waited = if inp.instant then 0 else inp.delay := by
  unfold regionRun
  split <;> rfl

lemma captureTool_instant_waited (env : Backend) (slot : Option StoredCapture)
    (di mw dl : JVal) :
    (captureTool env slot di mw dl (.jbool true)).waited = 0 := by
  cases hv : validateCaptureInput di mw dl (.jbool true) with
  | error e => simp [captureTool, hv]
  | ok inp =>
    have hb := (validateCaptureInput_ok hv).2.2.2.2.2.2.2.2
    have hb' : inp.instant = true := by
      simp only [asBool, Except.ok.injEq] at hb
      exact hb.symm
    simp [captureTool, hv, captureRun_waited, hb']

lemma captureRegionTool_instant_waited (env : Backend) (slot : Option StoredCapture)
    (x y w h mw dl : JVal) :
    (captureRegionTool env slot x y w h mw dl (.jbool true)).waited = 0 := by
  cases hv : validateRegionInput x y w h mw dl (.jbool true) with
  | error e => simp [captureRegionTool, hv]
  | ok inp =>
    have hb := (validateRegionInput_ok hv).2.2.2.2.2.2.2.2.2.2.2.2.2.2
    have hb' : inp.instant = true := by
      simp only [asBool, Except.ok.injEq] at hb
      exact hb.symm
    simp [captureRegionTool, hv, regionRun_waited, hb']

lemma captureBranch_waited (env : Backend) (slot : Option StoredCapture) (args : Args) :
    (captureBranch env slot args).waited =
      (captureTool env slot (dictGetD args "displayIndex" (.jint 0))
        (dictGetD args "maxWidth" (.jint 1920)) (dictGetD args "delay" (.jint 0))
        (dictGetD args "instant" (.jbool false))).waited := by
  unfold captureBranch
  split
  next r s2 w2 t2 heq => rw [heq]
  next e s2 w2 t2 heq => rw [heq]

lemma regionBranch_waited_zero (env : Backend) (slot : Option StoredCapture) (args : Args)
    (hinst : dictGetD args "instant" (.jbool false) = .jbool true) :
    (regionBranch env slot args).waited = 0 := by
  unfold regionBranch
  split
  · rfl
  next vx hgx =>
    split
    · rfl
    next vy hgy =>
      split
      · rfl
      next vw hgw =>
        split
        · rfl
        next vh hgh =>
          split
          next r s2 w2 t2 heq =>
            have hz := captureRegionTool_instant_waited env slot vx vy vw vh
              (dictGetD args "maxWidth" (.jint 1920)) (dictGetD args "delay" (.jint 0))
            rw [← hinst] at hz
            rw [heq] at hz
            exact hz
          next e s2 w2 t2 heq =>
            have hz := captureRegionTool_instant_waited env slot vx vy vw vh
              (dictGetD args "maxWidth" (.jint 1920)) (dictGetD args "delay" (.jint 0))
            rw [← hinst] at hz
            rw [heq] at hz
            exact hz

lemma capture_validate_oob {args : Args} (hoob : capOOB args) :
    ∃ m, validateCaptureInput (dictGetD args "displayIndex" (.jint 0))
      (dictGetD args "maxWidth" (.jint 1920)) (dictGetD args "delay" (.jint 0))
      (dictGetD args "instant" (.jbool false)) = .error (.validationError m) := by
  have hnotok : ∀ inp, validateCaptureInput (dictGetD args "displayIndex" (.jint 0))
      (dictGetD args "maxWidth" (.jint 1920)) (dictGetD args "delay" (.jint 0))
      (dictGetD args "instant" (.jbool false)) ≠ .ok inp := by
    intro inp hv
    obtain ⟨h1, h2, h3, h4, h5, h6, h7, h8, h9⟩ := validateCaptureInput_ok hv
    rcases hoob with ⟨i, hl, hi⟩ | ⟨w, hl, hw⟩ | ⟨d, hl, hd⟩ | ⟨q, hl, hq⟩
    · rw [show dictGetD args "displayIndex" (.jint 0) = .jint i by
        simp [dictGetD, hl]] at h1
      simp only [asInt, Except.ok.injEq] at h1
      omega
    · rw [show dictGetD args "maxWidth" (.jint 1920) = .jint w by
        simp [dictGetD, hl]] at h3
      simp only [asInt, Except.ok.injEq] at h3
      omega
    · rw [show dictGetD args "delay" (.jint 0) = .jint d by
        simp [dictGetD, hl]] at h6
      simp only [asRat, Except.ok.injEq] at h6
      rcases hd with hd | hd
      · have hcast : (d : Rat) < 0 := by exact_mod_cast hd
        rw [h6] at hcast
        exact absurd h7 (not_le.2 hcast)
      · have hcast : (10 : Rat) < (d : Rat) := by exact_mod_cast hd
        rw [h6] at hcast
        exact absurd h8 (not_le.2 hcast)
    · rw [show dictGetD args "delay" (.jint 0) = .jnum q by
        simp [dictGetD, hl]] at h6
      simp only [asRat, Except.ok.injEq] at h6
      rcases hq with hq | hq
      · rw [h6] at hq
        exact absurd h7 (not_le.2 hq)
      · rw [h6] at hq
        exact absurd h8 (not_le.2 hq)
  cases hv : validateCaptureInput (dictGetD args "displayIndex" (.jint 0))
      (dictGetD args "maxWidth" (.jint 1920)) (dictGetD args "delay" (.jint 0))
      (dictGetD args "instant" (.jbool false)) with
  | ok inp => exact absurd hv (hnotok inp)
  | error e =>
    obtain ⟨m, hm⟩ := validateCaptureInput_error_shape hv
    exact ⟨m, by rw [hm]⟩

lemma region_validate_oob {args : Args} {vx vy vw vh : Int}
    (hbad : vx < 0 ∨ vy < 0 ∨ vw ≤ 0 ∨ vh ≤ 0 ∨
      (∃ w : Int, args.lookup "maxWidth" = some (.jint w) ∧ (w < 100 ∨ 4096 < w)) ∨
      (∃ d : Int, args.lookup "delay" = some (.jint d) ∧ (d < 0 ∨ 10 < d))) :
    ∃ m, validateRegionInput (.jint vx) (.jint vy) (.jint vw) (.jint vh)
      (dictGetD args "maxWidth" (.jint 1920)) (dictGetD args "delay" (.jint 0))
      (dictGetD args "instant" (.jbool false)) = .error (.validationError m) := by
  have hnotok : ∀ inp, validateRegionInput (.jint vx) (.jint vy) (.jint vw) (.jint vh)
      (dictGetD args "maxWidth" (.jint 1920)) (dictGetD args "delay" (.jint 0))
      (dictGetD args "instant" (.jbool false)) ≠ .ok inp := by
    intro inp hv
    obtain ⟨hx1, hx2, hy1, hy2, hw1, hw2, hh1, hh2, hm1, hm2, hm3, hd1, hd2, hd3, hb1⟩ :=
      validateRegionInput_ok hv
    simp only [asInt, Except.ok.injEq] at hx1 hy1 hw1 hh1
    rcases hbad with hb | hb | hb | hb | ⟨w, hl, hw'⟩ | ⟨d, hl, hd'⟩
    · omega
    · omega
    · omega
    · omega
    · rw [show dictGetD args "maxWidth" (.jint 1920) = .jint w by
        simp [dictGetD, hl]] at hm1
      simp only [asInt, Except.ok.injEq] at hm1
      omega
    · rw [show dictGetD args "delay" (.jint 0) = .jint d by
        simp [dictGetD, hl]] at hd1
      simp only [asRat, Except.ok.injEq] at hd1
      rcases hd' with hd' | hd'
      · have hcast : (d : Rat) < 0 := by exact_mod_cast hd'
        rw [hd1] at hcast
        exact absurd hd2 (not_le.2 hcast)
      · have hcast : (10 : Rat) < (d : Rat) := by exact_mod_cast hd'
        rw [hd1] at hcast
        exact absurd hd3 (not_le.2 hcast)
  cases hv : validateRegionInput (.jint vx) (.jint vy) (.jint vw) (.jint vh)
      (dictGetD args "maxWidth" (.jint 1920)) (dictGetD args "delay" (.jint 0))
      (dictGetD args "instant" (.jbool false)) with
  | ok inp => exact absurd hv (hnotok inp)
  | error e =>
    obtain ⟨m, hm⟩ := validateRegionInput_error_shape hv
    exact ⟨m, by rw [hm]⟩

/-- C1: for every tool call (any name, any argument bag) the dispatcher of
server.py returns a structured response: an exception raised inside the
`try:` body is caught at the dispatch boundary and converted into the
`\x7berror: message\x7d` payload, and a normally returned body response is
passed through unchanged, so no exception propagates to the transport
loop. -/
theorem dispatch_error_boundary (env : Backend) (slot : Option StoredCapture)
    (name : String) (arguments : Option Args) :
    (∀ e, (tryBody env slot name (arguments.getD [])).result = .error e →
      (handleCallTool env slot name arguments).response = [.text (errorJson e.message)]) ∧
    (∀ resp, (tryBody env slot name (arguments.getD [])).result = .ok resp →
      (handleCallTool env slot name arguments).response = resp) := by
  exact ⟨fun e he => handle_response_of_error env slot name arguments e he,
    fun resp ho => handle_response_of_ok env slot name arguments resp ho⟩

/-- Witness for C1: calling capture_region with an empty argument bag raises
`KeyError` for `x` inside the body, and the dispatcher converts it into the
structured error payload. -/
theorem dispatch_error_boundary_witness :
    (tryBody env1080 none "screen.capture_region" ((some ([] : Args)).getD [])).result =
      .error (.keyError "x") ∧
    (handleCallTool env1080 none "screen.capture_region" (some ([] : Args))).response =
      [.text (errorJson (PyErr.keyError "x").message)] :=
  ⟨rfl, (dispatch_error_boundary env1080 none "screen.capture_region" (some [])).1
    (.keyError "x") rfl⟩

/-- The concrete out-of-range argument bag used by the C2 witness: a
negative x together with maxWidth 50. -/
def argsOOB : Args :=
  [("x", .jint (-1)), ("y", .jint 0), ("width", .jint 5),
   ("height", .jint 5), ("maxWidth", .jint 50)]

/-- C2: a `screen.capture` or `screen.capture_region` call whose argument
bag is out of range (negative displayIndex, maxWidth outside [100, 4096],
delay outside [0, 10], negative x or y, non-positive width or height) is
answered with a structured validation-error payload, the stored slot is
unchanged, and the capture primitive is never invoked. -/
theorem validation_rejects_out_of_range (env : Backend) (slot : Option StoredCapture)
    (args : Args) :
    (capOOB args → ∃ m,
      (handleCallTool env slot "screen.capture" (some args)).response =
        [.text (errorJson m)] ∧
      (handleCallTool env slot "screen.capture" (some args)).slot = slot ∧
      (handleCallTool env slot "screen.capture" (some args)).touched = false) ∧
    (regOOB args → ∃ m,
      (handleCallTool env slot "screen.capture_region" (some args)).response =
        [.text (errorJson m)] ∧
      (handleCallTool env slot "screen.capture_region" (some args)).slot = slot ∧
      (handleCallTool env slot "screen.capture_region" (some args)).touched = false) := by
  constructor
  · intro hoob
    obtain ⟨m, hv⟩ := capture_validate_oob hoob
    have hstep : captureTool env slot (dictGetD args "displayIndex" (.jint 0))
        (dictGetD args "maxWidth" (.jint 1920)) (dictGetD args "delay" (.jint 0))
        (dictGetD args "instant" (.jbool false)) =
        ⟨.error (.validationError m), slot, 0, false⟩ := by
      simp [captureTool, hv]
    have htb : tryBody env slot "screen.capture" args =
        ⟨.error (.validationError m), slot, 0, false⟩ := by
      rw [tryBody_capture]
      exact captureBranch_error env slot args _ _ _ _ hstep
    refine ⟨m, ?_, ?_, ?_⟩
    · rw [handle_response_of_error env slot "screen.capture" (some args)
        (.validationError m) (by simp [htb])]
      rfl
    · rw [handle_slot]
      simp [htb]
    · rw [handle_touched]
      simp [htb]
  · intro hoob
    obtain ⟨vx, vy, vw, vh, hx, hy, hw, hh, hbad⟩ := hoob
    obtain ⟨m, hv⟩ := region_validate_oob hbad
    have hstep : captureRegionTool env slot (.jint vx) (.jint vy) (.jint vw) (.jint vh)
        (dictGetD args "maxWidth" (.jint 1920)) (dictGetD args "delay" (.jint 0))
        (dictGetD args "instant" (.jbool false)) =
        ⟨.error (.validationError m), slot, 0, false⟩ := by
      simp [captureRegionTool, hv]
    have htb : tryBody env slot "screen.capture_region" args =
        ⟨.error (.validationError m), slot, 0, false⟩ := by
      rw [tryBody_region]
      exact regionBranch_error env slot args _ _ _ _ _ _ _ _ hx hy hw hh hstep
    refine ⟨m, ?_, ?_, ?_⟩
    · rw [handle_response_of_error env slot "screen.capture_region" (some args)
        (.validationError m) (by simp [htb])]
      rfl
    · rw [handle_slot]
      simp [htb]
    · rw [handle_touched]
      simp [htb]

/-- Witness for C2 at `argsOOB` (negative x, maxWidth 50): both tools reject
with a structured validation error, leaving the slot empty and the backend
untouched. -/
theorem validation_rejects_out_of_range_witness :
    capOOB argsOOB ∧ regOOB argsOOB ∧
    (∃ m, (handleCallTool env1080 none "screen.capture" (some argsOOB)).response =
        [.text (errorJson m)] ∧
      (handleCallTool env1080 none "screen.capture" (some argsOOB)).slot = none ∧
      (handleCallTool env1080 none "screen.capture" (some argsOOB)).touched = false) ∧
    (∃ m, (handleCallTool env1080 none "screen.capture_region" (some argsOOB)).response =
        [.text (errorJson m)] ∧
      (handleCallTool env1080 none "screen.capture_region" (some argsOOB)).slot = none ∧
      (handleCallTool env1080 none "screen.capture_region" (some argsOOB)).touched = false) := by
  have hcap : capOOB argsOOB := Or.inr (Or.inl ⟨50, rfl, Or.inl (by decide)⟩)
  have hreg : regOOB argsOOB := ⟨-1, 0, 5, 5, rfl, rfl, rfl, rfl, Or.inl (by decide)⟩
  exact ⟨hcap, hreg, (validation_rejects_out_of_range env1080 none argsOOB).1 hcap,
    (validation_rejects_out_of_range env1080 none argsOOB).2 hreg⟩

/-- C3: `screen.latest` with an empty slot returns the structured no-capture
error payload — the same `\x7berror\x7d` shape the dispatcher uses for
failures — without raising and without touching the slot; with a stored
capture it returns that capture's image and metadata. -/
theorem latest_empty_and_found (env : Backend) (arguments : Option Args) :
    (handleCallTool env none "screen.latest" arguments).response =
      [.text (errorJson noCaptureMsg)] ∧
    (handleCallTool env none "screen.latest" arguments).slot = none ∧
    ∀ s : StoredCapture,
      (handleCallTool env (some s) "screen.latest" arguments).response =
        [.image s.image_base64 "image/png", .text (metadataJson s.metadata)] :=
  ⟨rfl, rfl, fun s => latest_some_response env s arguments⟩

/-- The concrete region capture produced by `env1080` on the rectangle
(0, 0, 10, 10). -/
def rReg : CaptureResult :=
  ⟨"RAWREGION:10x10", ⟨10, 10, none, "2025-01-01T00:00:00Z", some "Sponsored by Example"⟩⟩

/-- C4: after any successful capture, and independently after any
successful region capture, the slot holds exactly the produced capture (put
always succeeds and replaces the single slot whatever it held before), and
an immediately following `screen.latest` returns the identical image bytes
and metadata, timestamp included. -/
theorem capture_then_latest_roundtrip (env : Backend) (slot : Option StoredCapture)
    (di mw dl inst x y w h mw2 dl2 inst2 : JVal) (r r2 : CaptureResult) :
    ((captureTool env slot di mw dl inst).result = .ok r →
      (captureTool env slot di mw dl inst).slot =
        some ⟨r.image_base64, r.metadata, env.now⟩ ∧
      (handleCallTool env ((captureTool env slot di mw dl inst).slot)
          "screen.latest" none).response =
        [.image r.image_base64 "image/png", .text (metadataJson r.metadata)]) ∧
    ((captureRegionTool env slot x y w h mw2 dl2 inst2).result = .ok r2 →
      (captureRegionTool env slot x y w h mw2 dl2 inst2).slot =
        some ⟨r2.image_base64, r2.metadata, env.now⟩ ∧
      (handleCallTool env ((captureRegionTool env slot x y w h mw2 dl2 inst2).slot)
          "screen.latest" none).response =
        [.image r2.image_base64 "image/png", .text (metadataJson r2.metadata)]) := by
  constructor
  · intro hc
    obtain ⟨inp, hv, hD, hres, hslot⟩ := captureTool_ok_shape hc
    have h1 : (captureTool env slot di mw dl inst).slot =
        some ⟨r.image_base64, r.metadata, env.now⟩ := by
      rw [hslot]; rfl
    refine ⟨h1, ?_⟩
    rw [h1]
    exact latest_some_response env ⟨r.image_base64, r.metadata, env.now⟩ none
  · intro hr
    obtain ⟨inp2, hv2, hR, hres2, hslot2⟩ := captureRegionTool_ok_shape hr
    have h2 : (captureRegionTool env slot x y w h mw2 dl2 inst2).slot =
        some ⟨r2.image_base64, r2.metadata, env.now⟩ := by
      rw [hslot2]; rfl
    refine ⟨h2, ?_⟩
    rw [h2]
    exact latest_some_response env ⟨r2.image_base64, r2.metadata, env.now⟩ none

/-- Witness for C4: concrete capture and region capture on `env1080`,
followed by `screen.latest` returning exactly the produced payloads. -/
theorem capture_then_latest_roundtrip_witness :
    ((captureTool env1080 none (.jint 0) (.jint 800) (.jint 0) (.jbool false)).result =
        .ok r1080 ∧
      (captureRegionTool env1080 none (.jint 0) (.jint 0) (.jint 10) (.jint 10)
          (.jint 1920) (.jint 0) (.jbool false)).result = .ok rReg) ∧
    ((captureTool env1080 none (.jint 0) (.jint 800) (.jint 0) (.jbool false)).slot =
        some ⟨r1080.image_base64, r1080.metadata, "2025-01-01T00:00:00Z"⟩ ∧
      (handleCallTool env1080
          ((captureTool env1080 none (.jint 0) (.jint 800) (.jint 0) (.jbool false)).slot)
          "screen.latest" none).response =
        [.image r1080.image_base64 "image/png", .text (metadataJson r1080.metadata)]) ∧
    ((captureRegionTool env1080 none (.jint 0) (.jint 0) (.jint 10) (.jint 10)
          (.jint 1920) (.jint 0) (.jbool false)).slot =
        some ⟨rReg.image_base64, rReg.metadata, "2025-01-01T00:00:00Z"⟩ ∧
      (handleCallTool env1080
          ((captureRegionTool env1080 none (.jint 0) (.jint 0) (.jint 10) (.jint 10)
            (.jint 1920) (.jint 0) (.jbool false)).slot)
          "screen.latest" none).response =
        [.image rReg.image_base64 "image/png", .text (metadataJson rReg.metadata)]) :=
  ⟨⟨rfl, rfl⟩,
    (capture_then_latest_roundtrip env1080 none (.jint 0) (.jint 800) (.jint 0)
      (.jbool false) (.jint 0) (.jint 0) (.jint 10) (.jint 10) (.jint 1920) (.jint 0)
      (.jbool false) r1080 rReg).1 rfl,
    (capture_then_latest_roundtrip env1080 none (.jint 0) (.jint 800) (.jint 0)
      (.jbool false) (.jint 0) (.jint 0) (.jint 10) (.jint 10) (.jint 1920) (.jint 0)
      (.jbool false) r1080 rReg).2 rfl⟩

/-- C5: supplying `instant=true` skips the delay wait in both capture tools
regardless of the delay value: the dispatched call waits zero seconds. -/
theorem instant_skips_delay (env : Backend) (slot : Option StoredCapture) (args : Args)
    (h : args.lookup "instant" = some (.jbool true)) :
    (handleCallTool env slot "screen.capture" (some args)).waited = 0 ∧
    (handleCallTool env slot "screen.capture_region" (some args)).waited = 0 := by
  have hi : dictGetD args "instant" (.jbool false) = .jbool true := by
    simp [dictGetD, h]
  constructor
  · rw [handle_waited]
    simp only [Option.getD_some]
    rw [tryBody_capture, captureBranch_waited, hi]
    exact captureTool_instant_waited env slot (dictGetD args "displayIndex" (.jint 0))
      (dictGetD args "maxWidth" (.jint 1920)) (dictGetD args "delay" (.jint 0))
  · rw [handle_waited]
    simp only [Option.getD_some]
    rw [tryBody_region]
    exact regionBranch_waited_zero env slot args hi

/-- Witness for C5: delay 10 with instant true completes with a zero wait on
both tools. -/
theorem instant_skips_delay_witness :
    List.lookup "instant" ([("delay", JVal.jint 10), ("instant", JVal.jbool true)] : Args) =
      some (.jbool true) ∧
    (handleCallTool env1080 none "screen.capture"
        (some [("delay", JVal.jint 10), ("instant", JVal.jbool true)])).waited = 0 ∧
    (handleCallTool env1080 none "screen.capture_region"
        (some [("delay", JVal.jint 10), ("instant", JVal.jbool true)])).waited = 0 := by
  have h : List.lookup "instant"
      ([("delay", JVal.jint 10), ("instant", JVal.jbool true)] : Args) =
      some (.jbool true) := rfl
  have hmain := instant_skips_delay env1080 none
    [("delay", JVal.jint 10), ("instant", JVal.jbool true)] h
  exact ⟨h, hmain.1, hmain.2⟩

lemma regionBranch_keyError_x (env : Backend) (slot : Option StoredCapture) (args : Args)
    (hx : args.lookup "x" = none) :
    regionBranch env slot args = ⟨.error (.keyError "x"), slot, 0, false⟩ := by
  unfold regionBranch
  rw [show dictGet args "x" = .error (.keyError "x") by simp [dictGet, hx]]

lemma regionBranch_keyError_y (env : Backend) (slot : Option StoredCapture) (args : Args)
    (vx : JVal) (hx : args.lookup "x" = some vx) (hy : args.lookup "y" = none) :
    regionBranch env slot args = ⟨.error (.keyError "y"), slot, 0, false⟩ := by
  unfold regionBranch
  rw [show dictGet args "x" = .ok vx by simp [dictGet, hx]]
  rw [show dictGet args "y" = .error (.keyError "y") by simp [dictGet, hy]]

lemma regionBranch_keyError_w (env : Backend) (slot : Option StoredCapture) (args : Args)
    (vx vy : JVal) (hx : args.lookup "x" = some vx) (hy : args.lookup "y" = some vy)
    (hw : args.lookup "width" = none) :
    regionBranch env slot args = ⟨.error (.keyError "width"), slot, 0, false⟩ := by
  unfold regionBranch
  rw [show dictGet args "x" = .ok vx by simp [dictGet, hx]]
  rw [show dictGet args "y" = .ok vy by simp [dictGet, hy]]
  rw [show dictGet args "width" = .error (.keyError "width") by simp [dictGet, hw]]

lemma regionBranch_keyError_h (env : Backend) (slot : Option StoredCapture) (args : Args)
    (vx vy vw : JVal) (hx : args.lookup "x" = some vx) (hy : args.lookup "y" = some vy)
    (hw : args.lookup "width" = some vw) (hh : args.lookup "height" = none) :
    regionBranch env slot args = ⟨.error (.keyError "height"), slot, 0, false⟩ := by
  unfold regionBranch
  rw [show dictGet args "x" = .ok vx by simp [dictGet, hx]]
  rw [show dictGet args "y" = .ok vy by simp [dictGet, hy]]
  rw [show dictGet args "width" = .ok vw by simp [dictGet, hw]]
  rw [show dictGet args "height" = .error (.keyError "height") by simp [dictGet, hh]]

lemma captureBranch_congr (env : Backend) (slot : Option StoredCapture) {a b : Args}
    (h1 : dictGetD a "displayIndex" (.jint 0) = dictGetD b "displayIndex" (.jint 0))
    (h2 : dictGetD a "maxWidth" (.jint 1920) = dictGetD b "maxWidth" (.jint 1920))
    (h3 : dictGetD a "delay" (.jint 0) = dictGetD b "delay" (.jint 0))
    (h4 : dictGetD a "instant" (.jbool false) = dictGetD b "instant" (.jbool false)) :
    captureBranch env slot a = captureBranch env slot b := by
  unfold captureBranch
  rw [h1, h2, h3, h4]

lemma handle_congr (env : Backend) (slot : Option StoredCapture) (name : String)
    {a b : Args} (h : tryBody env slot name a = tryBody env slot name b) :
    handleCallTool env slot name (some a) = handleCallTool env slot name (some b) := by
  unfold handleCallTool
  simp only [Option.getD_some]
  rw [h]

/-- C6: every successful full-display capture has final width at most
maxWidth, resizing is a no-op when the raw capture is already narrow
enough, and otherwise the height preserves the raw aspect ratio within the
integer-rounding tolerance; concretely, capture(displayIndex=0,
maxWidth=800) on a 1920x1080 display yields metadata 800x450 with
displayIndex 0 and a non-empty sponsored string. -/
theorem capture_resize_bounds (env : Backend) (slot : Option StoredCapture)
    (di mw dl inst : JVal) (inp : CaptureInput) (r : CaptureResult)
    (hv : validateCaptureInput di mw dl inst = .ok inp)
    (hc : (captureTool env slot di mw dl inst).result = .ok r) :
    (r.metadata.width ≤ inp.max_width.toNat ∧
      ((env.grab inp.display_index.toNat).width ≤ inp.max_width.toNat →
        r.metadata.width = (env.grab inp.display_index.toNat).width ∧
        r.metadata.height = (env.grab inp.display_index.toNat).height) ∧
      (0 < (env.grab inp.display_index.toNat).width →
        r.metadata.height * (env.grab inp.display_index.toNat).width ≤
          (env.grab inp.display_index.toNat).height * r.metadata.width ∧
        (env.grab inp.display_index.toNat).height * r.metadata.width <
          (r.metadata.height + 1) * (env.grab inp.display_index.toNat).width)) ∧
    ((captureTool env1080 none (.jint 0) (.jint 800) (.jint 0) (.jbool false)).result =
        .ok r1080 ∧
      r1080.metadata.width = 800 ∧ r1080.metadata.height = 450 ∧
      r1080.metadata.display_index = some 0 ∧
      r1080.metadata.sponsored = some "Sponsored by Example" ∧
      "Sponsored by Example" ≠ "") := by
  obtain ⟨inp2, hv2, hD, hres, hslot⟩ := captureTool_ok_shape hc
  rw [hv] at hv2
  injection hv2 with hinp
  subst hinp
  subst hres
  constructor
  · refine ⟨?_, ?_, ?_⟩
    · show (resizeDims (env.grab inp.display_index.toNat).width
        (env.grab inp.display_index.toNat).height inp.max_width.toNat).1 ≤
        inp.max_width.toNat
      exact resizeDims_fst_le _ _ _
    · intro hle
      constructor
      · show (resizeDims (env.grab inp.display_index.toNat).width
          (env.grab inp.display_index.toNat).height inp.max_width.toNat).1 = _
        rw [resizeDims_noop _ hle]
      · show (resizeDims (env.grab inp.display_index.toNat).width
          (env.grab inp.display_index.toNat).height inp.max_width.toNat).2 = _
        rw [resizeDims_noop _ hle]
    · intro hpos
      exact resizeDims_aspect (env.grab inp.display_index.toNat).width
        (env.grab inp.display_index.toNat).height inp.max_width.toNat hpos
  · exact ⟨rfl, rfl, rfl, rfl, rfl, by decide⟩

/-- Witness for C6: the concrete 1920x1080 scenario at maxWidth 800. -/
theorem capture_resize_bounds_witness :
    (validateCaptureInput (.jint 0) (.jint 800) (.jint 0) (.jbool false) =
        .ok ⟨0, 800, 0, false⟩ ∧
      (captureTool env1080 none (.jint 0) (.jint 800) (.jint 0) (.jbool false)).result =
        .ok r1080) ∧
    ((r1080.metadata.width ≤ 800 ∧
      (1920 ≤ 800 →
        r1080.metadata.width = 1920 ∧ r1080.metadata.height = 1080) ∧
      (0 < 1920 →
        r1080.metadata.height * 1920 ≤ 1080 * r1080.metadata.width ∧
        1080 * r1080.metadata.width < (r1080.metadata.height + 1) * 1920)) ∧
    ((captureTool env1080 none (.jint 0) (.jint 800) (.jint 0) (.jbool false)).result =
        .ok r1080 ∧
      r1080.metadata.width = 800 ∧ r1080.metadata.height = 450 ∧
      r1080.metadata.display_index = some 0 ∧
      r1080.metadata.sponsored = some "Sponsored by Example" ∧
      "Sponsored by Example" ≠ "")) :=
  ⟨⟨rfl, rfl⟩, capture_resize_bounds env1080 none (.jint 0) (.jint 800) (.jint 0)
    (.jbool false) ⟨0, 800, 0, false⟩ r1080 rfl rfl⟩

/-- C7: the server.py dispatcher applies the defaults displayIndex=0,
maxWidth=1920, delay=0, instant=false for any omitted optional argument of
`screen.capture`: supplying the default explicitly changes nothing, and the
empty argument bag behaves exactly like the fully-defaulted bag. -/
theorem capture_defaults_applied (env : Backend) (slot : Option StoredCapture) (args : Args) :
    (args.lookup "displayIndex" = none →
      handleCallTool env slot "screen.capture" (some args) =
        handleCallTool env slot "screen.capture" (some (("displayIndex", JVal.jint 0) :: args))) ∧
    (args.lookup "maxWidth" = none →
      handleCallTool env slot "screen.capture" (some args) =
        handleCallTool env slot "screen.capture" (some (("maxWidth", JVal.jint 1920) :: args))) ∧
    (args.lookup "delay" = none →
      handleCallTool env slot "screen.capture" (some args) =
        handleCallTool env slot "screen.capture" (some (("delay", JVal.jint 0) :: args))) ∧
    (args.lookup "instant" = none →
      handleCallTool env slot "screen.capture" (some args) =
        handleCallTool env slot "screen.capture" (some (("instant", JVal.jbool false) :: args))) ∧
    handleCallTool env slot "screen.capture" (some []) =
      handleCallTool env slot "screen.capture"
        (some [("displayIndex", JVal.jint 0), ("maxWidth", JVal.jint 1920),
          ("delay", JVal.jint 0), ("instant", JVal.jbool false)]) := by
  refine ⟨?_, ?_, ?_, ?_, ?_⟩
  · intro hnone
    refine handle_congr env slot _ ?_
    rw [tryBody_capture, tryBody_capture]
    refine captureBranch_congr env slot ?_ ?_ ?_ ?_ <;>
      simp [dictGetD, List.lookup, hnone]
  · intro hnone
    refine handle_congr env slot _ ?_
    rw [tryBody_capture, tryBody_capture]
    refine captureBranch_congr env slot ?_ ?_ ?_ ?_ <;>
      simp [dictGetD, List.lookup, hnone]
  · intro hnone
    refine handle_congr env slot _ ?_
    rw [tryBody_capture, tryBody_capture]
    refine captureBranch_congr env slot ?_ ?_ ?_ ?_ <;>
      simp [dictGetD, List.lookup, hnone]
  · intro hnone
    refine handle_congr env slot _ ?_
    rw [tryBody_capture, tryBody_capture]
    refine captureBranch_congr env slot ?_ ?_ ?_ ?_ <;>
      simp [dictGetD, List.lookup, hnone]
  · rfl

/-- Witness for C7: the empty argument bag has every optional key absent,
and inserting each default explicitly changes nothing. -/
theorem capture_defaults_applied_witness :
    List.lookup "displayIndex" ([] : Args) = none ∧
    handleCallTool env1080 none "screen.capture" (some []) =
      handleCallTool env1080 none "screen.capture"
        (some [("displayIndex", JVal.jint 0)]) :=
  ⟨rfl, (capture_defaults_applied env1080 none []).1 rfl⟩

/-- C8: every successful region capture carries no displayIndex in its
metadata, and independently every successful full-display capture carries
exactly the requested non-negative display index. -/
theorem display_index_presence (env : Backend) (slot : Option StoredCapture)
    (x y w h mw dl inst : JVal) (i : Int) (mw2 dl2 inst2 : JVal) (r r2 : CaptureResult) :
    ((captureRegionTool env slot x y w h mw dl inst).result = .ok r →
      r.metadata.display_index = none) ∧
    ((captureTool env slot (.jint i) mw2 dl2 inst2).result = .ok r2 →
      r2.metadata.display_index = some i ∧ 0 ≤ i) := by
  constructor
  · intro hreg
    obtain ⟨inp, hv, hR, hres, _⟩ := captureRegionTool_ok_shape hreg
    rw [hres]
    rfl
  · intro hcap
    obtain ⟨inpc, hvc, hD, hresc, _⟩ := captureTool_ok_shape hcap
    obtain ⟨h1, h2, _⟩ := validateCaptureInput_ok hvc
    simp only [asInt, Except.ok.injEq] at h1
    refine ⟨?_, ?_⟩
    · rw [hresc]
      show some inpc.display_index = some i
      rw [h1]
    · omega

/-- Witness for C8: concrete region and display captures on `env1080`. -/
theorem display_index_presence_witness :
    ((captureRegionTool env1080 none (.jint 0) (.jint 0) (.jint 10) (.jint 10)
        (.jint 1920) (.jint 0) (.jbool false)).result = .ok rReg ∧
      (captureTool env1080 none (.jint 0) (.jint 800) (.jint 0) (.jbool false)).result =
        .ok r1080) ∧
    rReg.metadata.display_index = none ∧
    (r1080.metadata.display_index = some 0 ∧ (0 : Int) ≤ 0) :=
  ⟨⟨rfl, rfl⟩,
    (display_index_presence env1080 none (.jint 0) (.jint 0) (.jint 10) (.jint 10)
      (.jint 1920) (.jint 0) (.jbool false) 0 (.jint 800) (.jint 0) (.jbool false)
      rReg r1080).1 rfl,
    (display_index_presence env1080 none (.jint 0) (.jint 0) (.jint 10) (.jint 10)
      (.jint 1920) (.jint 0) (.jbool false) 0 (.jint 800) (.jint 0) (.jbool false)
      rReg r1080).2 rfl⟩

/-- C9: for any tool name other than the four recognized ones, the
dispatcher returns the plain text `Unknown tool: <name>`, which never
coincides with the structured `\x7berror\x7d` JSON payload used for
failures (it starts with a different character). -/
theorem unknown_tool_plain_text (env : Backend) (slot : Option StoredCapture)
    (arguments : Option Args) (name : String)
    (h1 : name ≠ "screen.list_displays") (h2 : name ≠ "screen.capture")
    (h3 : name ≠ "screen.capture_region") (h4 : name ≠ "screen.latest") :
    (handleCallTool env slot name arguments).response =
      [.text ("Unknown tool: " ++ name)] ∧
    ∀ msg, "Unknown tool: " ++ name ≠ errorJson msg := by
  constructor
  · have htb : tryBody env slot name (arguments.getD []) =
        ⟨.ok [.text ("Unknown tool: " ++ name)], slot, 0, false⟩ := by
      unfold tryBody
      rw [if_neg h1, if_neg h2, if_neg h3, if_neg h4]
    exact handle_response_of_ok env slot name arguments _ (by rw [htb])
  · intro msg hcontra
    have hl : ("Unknown tool: " ++ name).data.head? = some 'U' := by
      rw [String.data_append]
      rfl
    have hr : (errorJson msg).data.head? = some (Char.ofNat 123) := by
      unfold errorJson
      rw [String.data_append, String.data_append]
      rfl
    rw [hcontra, hr] at hl
    exact absurd hl (by decide)

/-- Witness for C9: the unrecognized name `foo`. -/
theorem unknown_tool_plain_text_witness :
    ("foo" : String) ≠ "screen.list_displays" ∧
    (handleCallTool env1080 none "foo" none).response =
      [.text ("Unknown tool: " ++ "foo")] ∧
    ∀ msg, "Unknown tool: " ++ "foo" ≠ errorJson msg := by
  have hmain := unknown_tool_plain_text env1080 none none "foo"
    (by decide) (by decide) (by decide) (by decide)
  exact ⟨by decide, hmain.1, hmain.2⟩

/-- C10: a `screen.capture_region` call missing any of the required keys
x, y, width, height raises a KeyError inside the body, which the dispatch
boundary converts to the structured error payload (the key name in
apostrophes, as Python stringifies a KeyError) with the slot unchanged and
the backend untouched; and a null argument mapping is treated as the empty
mapping for every tool. -/
theorem missing_region_key_caught (env : Backend) (slot : Option StoredCapture)
    (args : Args) :
    ((args.lookup "x" = none ∨ args.lookup "y" = none ∨
      args.lookup "width" = none ∨ args.lookup "height" = none) →
      ∃ k, k ∈ (["x", "y", "width", "height"] : List String) ∧
        (tryBody env slot "screen.capture_region" args).result =
          .error (.keyError k) ∧
        (handleCallTool env slot "screen.capture_region" (some args)).response =
          [.text (errorJson (apos ++ k ++ apos))] ∧
        (handleCallTool env slot "screen.capture_region" (some args)).slot = slot ∧
        (handleCallTool env slot "screen.capture_region" (some args)).touched = false) ∧
    ∀ nm, handleCallTool env slot nm none = handleCallTool env slot nm (some []) := by
  constructor
  · intro hmiss
    have main : ∀ k, tryBody env slot "screen.capture_region" args =
        ⟨.error (.keyError k), slot, 0, false⟩ →
        (tryBody env slot "screen.capture_region" args).result =
          .error (.keyError k) ∧
        (handleCallTool env slot "screen.capture_region" (some args)).response =
          [.text (errorJson (apos ++ k ++ apos))] ∧
        (handleCallTool env slot "screen.capture_region" (some args)).slot = slot ∧
        (handleCallTool env slot "screen.capture_region" (some args)).touched = false := by
      intro k htb
      refine ⟨by rw [htb], ?_, ?_, ?_⟩
      · rw [handle_response_of_error env slot "screen.capture_region" (some args)
          (.keyError k) (by simp only [Option.getD_some]; rw [htb])]
        rfl
      · rw [handle_slot]
        simp only [Option.getD_some]
        rw [htb]
      · rw [handle_touched]
        simp only [Option.getD_some]
        rw [htb]
    cases hx : args.lookup "x" with
    | none =>
      exact ⟨"x", by simp, main "x" (by
        rw [tryBody_region]
        exact regionBranch_keyError_x env slot args hx)⟩
    | some vx =>
      cases hy : args.lookup "y" with
      | none =>
        exact ⟨"y", by simp, main "y" (by
          rw [tryBody_region]
          exact regionBranch_keyError_y env slot args vx hx hy)⟩
      | some vy =>
        cases hw : args.lookup "width" with
        | none =>
          exact ⟨"width", by simp, main "width" (by
            rw [tryBody_region]
            exact regionBranch_keyError_w env slot args vx vy hx hy hw)⟩
        | some vw =>
          cases hh : args.lookup "height" with
          | none =>
            exact ⟨"height", by simp, main "height" (by
              rw [tryBody_region]
              exact regionBranch_keyError_h env slot args vx vy vw hx hy hw hh)⟩
          | some vh =>
            rcases hmiss with hm | hm | hm | hm <;> simp_all
  · intro nm
    rfl

/-- Witness for C10: the empty argument bag lacks `x`, and the null mapping
equals the empty mapping on a concrete call. -/
theorem missing_region_key_caught_witness :
    List.lookup "x" ([] : Args) = none ∧
    (∃ k, k ∈ (["x", "y", "width", "height"] : List String) ∧
      (tryBody env1080 none "screen.capture_region" ([] : Args)).result =
        .error (.keyError k) ∧
      (handleCallTool env1080 none "screen.capture_region" (some [])).response =
        [.text (errorJson (apos ++ k ++ apos))] ∧
      (handleCallTool env1080 none "screen.capture_region" (some [])).slot = none ∧
      (handleCallTool env1080 none "screen.capture_region" (some [])).touched = false) ∧
    handleCallTool env1080 none "screen.latest" none =
      handleCallTool env1080 none "screen.latest" (some []) := by
  have hmain := missing_region_key_caught env1080 none []
  exact ⟨rfl, hmain.1 (Or.inl rfl), hmain.2 "screen.latest"⟩
